import Mathlib

/-
Verification of the lustre_exporter procfs harvesting engine
(sources/procfs.go) against its natural-language specification.

The Go code is shallowly embedded:
- machine integers (uint64) are Nat with explicit bounds where overflow
  matters (strconv.ParseUint enforces the 2^64 range itself);
- fallible Go code returns GoResult, which distinguishes a returned
  error value from a runtime panic (index out of range);
- the filesystem is an explicit read-only oracle (FS) supplying the
  results of filepath.Glob and ioutil.ReadFile;
- the prometheus channel is modelled by returning the list of
  observations delivered to the sink, in delivery order.  Where the Go
  code iterates a map (unspecified order) the model fixes the textual
  order of the source; theorems that depend on it say so.
-/

namespace LustreProcfs

/-- Model of a Go error value (the code only ever inspects nil-ness and
propagates the value, so the message string is enough). -/
inductive GoErr where
  | msg : String → GoErr
deriving DecidableEq

/-- Result of running a piece of Go code that can return an error or hit
a runtime panic (e.g. an out-of-range slice index).  A returned error and
a panic are distinct outcomes: an error is handed to the caller, a panic
crashes the process. -/
inductive GoResult (α : Type) where
  | ok : α → GoResult α
  | err : GoErr → GoResult α
  | panics : GoResult α
deriving DecidableEq

/-- Read-only filesystem oracle.  `glob` models `filepath.Glob` (Go
returns a nil slice and nil error when nothing matches, modelled as
`Except.ok none`); `readFile` models `ioutil.ReadFile` returning the file
bytes as characters. -/
structure FS where
  glob : String → Except GoErr (Option (List String))
  readFile : String → Except GoErr (List Char)

/-- `samplesHelp` constant (procfs.go line 28). -/
def samplesHelp : String := "Total number of times the given metric has been collected."

/-- `maximumHelp` constant (procfs.go line 29). -/
def maximumHelp : String := "The maximum value retrieved for the given metric."

/-- `minimumHelp` constant (procfs.go line 30). -/
def minimumHelp : String := "The minimum value retrieved for the given metric."

/-- `totalHelp` constant (procfs.go line 31). -/
def totalHelp : String := "The sum of all values collected for the given metric."

/-- `lustreProcMetric` (procfs.go lines 34-40). -/
structure lustreProcMetric where
  subsystem : String
  name : String
  source : String
  path : String
  helpText : String
deriving DecidableEq

/-- `newLustreProcMetric` (procfs.go lines 51-59); `subsystem` keeps the
Go zero value. -/
def newLustreProcMetric (name source path helpText : String) : lustreProcMetric :=
  { subsystem := "", name := name, source := source, path := path, helpText := helpText }

/-- `lustreSource` (procfs.go lines 46-49). -/
structure lustreSource where
  lustreProcMetrics : List lustreProcMetric
  basePath : String

/-- One value delivered to the sink callback of `parseFile`
(the five arguments of the handler at procfs.go line 168). -/
structure Observation where
  nodeType : String
  nodeName : String
  name : String
  helpText : String
  value : Nat
deriving DecidableEq

/-- Decimal value of a digit string (helper for `goParseUint64`). -/
def digitsToNat (s : List Char) : Nat :=
  s.foldl (fun acc c => acc * 10 + (c.toNat - 48)) 0

/-- Model of `strconv.ParseUint(s, 10, 64)`: accepts a non-empty string
of ASCII digits whose value fits in 64 bits, rejects everything else
(sign prefixes and underscores are not permitted for base 10). -/
def goParseUint64 (s : List Char) : Except GoErr Nat :=
  if s = [] then Except.error (GoErr.msg "invalid syntax")
  else if s.all Char.isDigit then
    let n := digitsToNat s
    if n < 2 ^ 64 then Except.ok n else Except.error (GoErr.msg "value out of range")
  else Except.error (GoErr.msg "invalid syntax")

/-- Go `unicode.IsSpace` restricted to Latin-1 (space, tab, newline,
vertical tab, form feed, carriage return, NEL, NBSP); higher Unicode
white-space code points never occur in the proc files modelled here. -/
def goIsSpace (c : Char) : Bool :=
  c = ' ' || c = '\t' || c = '\n' || c = '\x0b' || c = '\x0c' || c = '\r' ||
    c.toNat = 133 || c.toNat = 160

/-- Model of `strings.TrimSpace`. -/
def goTrimSpace (s : List Char) : List Char :=
  ((s.dropWhile goIsSpace).reverse.dropWhile goIsSpace).reverse

/-- Split on a separator character, keeping empty pieces: model of
`strings.Split(s, "/")` for a one-character separator. -/
def splitChar (sep : Char) : List Char → List (List Char)
  | [] => [[]]
  | c :: rest =>
    let r := splitChar sep rest
    if c = sep then [] :: r
    else
      match r with
      | h :: t => (c :: h) :: t
      | [] => [[c]]

/-- `strings.Split(path, "/")` (procfs.go line 252). -/
def goSplitSlash (p : String) : List String :=
  (splitChar '/' p.toList).map String.mk

/-- Model of `regexp.MustCompile(" +").Split(s, -1)`: splits around every
maximal run of space characters, keeping the empty pieces produced at the
boundaries (procfs.go line 195). -/
def splitSpaceRuns : List Char → List (List Char)
  | [] => [[]]
  | c :: rest =>
    if c = ' ' then
      match rest with
      | ' ' :: _ => splitSpaceRuns rest
      | _ => [] :: splitSpaceRuns rest
    else
      match splitSpaceRuns rest with
      | h :: t => (c :: h) :: t
      | [] => [[c]]

/-- Model of `regexp.Compile(tok ++ ".*").FindString(s)` for a literal
token containing no newline and no metacharacters (the only two patterns
the code compiles are of this shape): the leftmost occurrence of the
token, extended greedily to the end of its line (RE2 dot does not match a
newline); `none` when the token does not occur.  The `regexp.Compile`
error branches (procfs.go lines 180-183 and 190-193) are unreachable for
these constant patterns and are not modelled. -/
def findTokenLine (tok : List Char) : List Char → Option (List Char)
  | [] => none
  | c :: rest =>
    if tok.isPrefixOf (c :: rest) then some ((c :: rest).takeWhile (fun d => d != '\n'))
    else findTokenLine tok rest

/-- Index of the leftmost occurrence of `tok` (used to state what
`findTokenLine` selects). -/
def firstOccIdx (tok : List Char) : List Char → Option Nat
  | [] => none
  | c :: rest =>
    if tok.isPrefixOf (c :: rest) then some 0
    else (firstOccIdx tok rest).map (· + 1)

/-- The literal prefix of the pattern `"read_bytes .*"` (procfs.go line 234). -/
def readBytesTok : List Char := "read_bytes ".toList

/-- The literal prefix of the pattern `"write_bytes .*"` (procfs.go line 239). -/
def writeBytesTok : List Char := "write_bytes ".toList

/-- The four numeric fields extracted from a matched stats line: the
contents of the map built at procfs.go lines 216-221 (keys
`samples_total`, `minimum_size_bytes`, `maximum_size_bytes`,
`total_bytes`). -/
structure RWStats where
  samples : Nat
  minimum : Nat
  maximum : Nat
  total : Nat
deriving DecidableEq

/-- Go slice indexing `l[i]`: panics when the index is out of range. -/
def goGet (l : List (List Char)) (i : Nat) : GoResult (List Char) :=
  match l.get? i with
  | some x => GoResult.ok x
  | none => GoResult.panics

/-- Body of `parseReadWriteBytes` after a line has matched (procfs.go
lines 195-223): split the match on runs of spaces and read fields 1, 4,
5, 6 positionally.  Each index access happens before the corresponding
`ParseUint`, and a failed `ParseUint` returns before the next index is
touched, exactly as in the source. -/
def parseLineFields (bytesString : List Char) : GoResult RWStats :=
  let bytesSplit := splitSpaceRuns bytesString
  match goGet bytesSplit 1 with
  | GoResult.err e => GoResult.err e
  | GoResult.panics => GoResult.panics
  | GoResult.ok f1 =>
    match goParseUint64 f1 with
    | Except.error e => GoResult.err e
    | Except.ok samples =>
      match goGet bytesSplit 4 with
      | GoResult.err e => GoResult.err e
      | GoResult.panics => GoResult.panics
      | GoResult.ok f4 =>
        match goParseUint64 f4 with
        | Except.error e => GoResult.err e
        | Except.ok minimum =>
          match goGet bytesSplit 5 with
          | GoResult.err e => GoResult.err e
          | GoResult.panics => GoResult.panics
          | GoResult.ok f5 =>
            match goParseUint64 f5 with
            | Except.error e => GoResult.err e
            | Except.ok maximum =>
              match goGet bytesSplit 6 with
              | GoResult.err e => GoResult.err e
              | GoResult.panics => GoResult.panics
              | GoResult.ok f6 =>
                match goParseUint64 f6 with
                | Except.error e => GoResult.err e
                | Except.ok total =>
                  GoResult.ok { samples := samples, minimum := minimum,
                                maximum := maximum, total := total }

/-- Wrap a parsed line as the non-nil map returned by
`parseReadWriteBytes`. -/
def liftFound : GoResult RWStats → GoResult (Option RWStats)
  | GoResult.ok st => GoResult.ok (some st)
  | GoResult.err e => GoResult.err e
  | GoResult.panics => GoResult.panics

/-- `parseReadWriteBytes` (procfs.go lines 179-224), specialised to the
two constant patterns via their literal token: an absent match returns
`(nil, nil)` (here `ok none`). -/
def parseReadWriteBytes (tok : List Char) (statsFile : List Char) : GoResult (Option RWStats) :=
  match findTokenLine tok statsFile with
  | none => GoResult.ok none
  | some bytesString => liftFound (parseLineFields bytesString)

/-- `parseStatsFile` (procfs.go lines 226-249): read the file, extract
the read direction, then the write direction; either map may be nil
(`none`). -/
def parseStatsFile (fs : FS) (path : String) : GoResult (Option RWStats × Option RWStats) :=
  match fs.readFile path with
  | Except.error e => GoResult.err e
  | Except.ok statsFile =>
    match parseReadWriteBytes readBytesTok statsFile with
    | GoResult.err e => GoResult.err e
    | GoResult.panics => GoResult.panics
    | GoResult.ok readStatsMap =>
      match parseReadWriteBytes writeBytesTok statsFile with
      | GoResult.err e => GoResult.err e
      | GoResult.panics => GoResult.panics
      | GoResult.ok writeStatsMap => GoResult.ok (readStatsMap, writeStatsMap)

/-- The key/help/value triples of the map built at procfs.go lines
216-221, in source order. -/
def rwEntries (st : RWStats) : List (String × String × Nat) :=
  [("samples_total", samplesHelp, st.samples),
   ("minimum_size_bytes", minimumHelp, st.minimum),
   ("maximum_size_bytes", maximumHelp, st.maximum),
   ("total_bytes", totalHelp, st.total)]

/-- Observations delivered for one direction of a stats file by the
nested loops of procfs.go lines 276-283: a nil map contributes nothing,
a present map contributes one observation per entry with metric name
`statType ++ "_" ++ key`. -/
def dirObservations (nodeType nodeName statType : String) : Option RWStats → List Observation
  | none => []
  | some st =>
    (rwEntries st).map (fun e =>
      { nodeType := nodeType, nodeName := nodeName,
        name := statType ++ "_" ++ e.1, helpText := e.2.1, value := e.2.2 })

/-- All observations delivered for a parsed stats file.  Go iterates the
enclosing map in unspecified order; the model fixes read before write
(insertion order at procfs.go lines 245-246). -/
def statsObservations (nodeType nodeName : String) (m : Option RWStats × Option RWStats) :
    List Observation :=
  dirObservations nodeType nodeName "read" m.1 ++ dirObservations nodeType nodeName "write" m.2

/-- Go slice indexing with an int index: a negative index panics just as
an out-of-range one does. -/
def goGetStr (l : List String) (i : Int) : GoResult String :=
  if i < 0 then GoResult.panics
  else
    match l.get? i.toNat with
    | some x => GoResult.ok x
    | none => GoResult.panics

/-- `parseFile` (procfs.go lines 251-286).  Returns the list of values
handed to the handler (empty on error or panic: in every failing run the
failure happens before the first handler call).  The guard `pathLen < 1`
and the two index accesses `pathElements[pathLen-1]`,
`pathElements[pathLen-2]` are modelled exactly; the switch has cases
`"single"` and `"stats"` and silently does nothing for any other
metric type. -/
def parseFile (fs : FS) (nodeType metricType : String) (path : String) (helpText : String) :
    GoResult (List Observation) :=
  let pathElements := goSplitSlash path
  let pathLen := pathElements.length
  if pathLen < 1 then GoResult.err (GoErr.msg "path did not return at least one element")
  else
    match goGetStr pathElements ((pathLen : Int) - 1) with
    | GoResult.err e => GoResult.err e
    | GoResult.panics => GoResult.panics
    | GoResult.ok name =>
      match goGetStr pathElements ((pathLen : Int) - 2) with
      | GoResult.err e => GoResult.err e
      | GoResult.panics => GoResult.panics
      | GoResult.ok nodeName =>
        if metricType = "single" then
          match fs.readFile path with
          | Except.error e => GoResult.err e
          | Except.ok value =>
            match goParseUint64 (goTrimSpace value) with
            | Except.error e => GoResult.err e
            | Except.ok convertedValue =>
              GoResult.ok [{ nodeType := nodeType, nodeName := nodeName, name := name,
                             helpText := helpText, value := convertedValue }]
        else if metricType = "stats" then
          match parseStatsFile fs path with
          | GoResult.err e => GoResult.err e
          | GoResult.panics => GoResult.panics
          | GoResult.ok metricMap => GoResult.ok (statsObservations nodeType nodeName metricMap)
        else GoResult.ok []

/-- Prefix collapse of repeated slashes (part of `filepath.Clean`). -/
def collapseSlashes (s : List Char) : List Char :=
  s.foldr (fun c acc => if c = '/' ∧ acc.head? = some '/' then acc else c :: acc) []

/-- `filepath.Clean` restricted to what the joined registry patterns can
contain: collapse duplicate slashes and drop a trailing slash (dot and
dot-dot segments never occur in the registry and are not modelled). -/
def goPathClean (s : String) : String :=
  if s = "" then "."
  else
    let cs := collapseSlashes s.toList
    let cs2 := if cs.getLast? = some '/' ∧ cs ≠ ['/'] then cs.dropLast else cs
    String.mk cs2

/-- `filepath.Join` (procfs.go line 153): join from the first non-empty
element and clean the result. -/
def goPathJoin (elems : List String) : String :=
  match elems.dropWhile (fun e => e = "") with
  | [] => ""
  | es => goPathClean (String.intercalate "/" es)

/-- The glob pattern built for one descriptor at procfs.go line 153. -/
def globPattern (basePath : String) (m : lustreProcMetric) : String :=
  goPathJoin [basePath, m.path, m.name]

/-- The metric type chosen by the switch at procfs.go lines 161-166. -/
def metricTypeFor (m : lustreProcMetric) : String :=
  if m.name = "stats" then "stats" else "single"

/-- End state of a scrape: clean return, a returned error, or a crash. -/
inductive Outcome where
  | ok
  | err : GoErr → Outcome
  | panicked
deriving DecidableEq

/-- The inner loop of `Update` over the matched paths of one descriptor
(procfs.go lines 160-174): observations accumulate in path order and the
first failing path aborts the loop. -/
def runPaths (fs : FS) (source metricType helpText : String) :
    List String → List Observation × Outcome
  | [] => ([], Outcome.ok)
  | p :: rest =>
    match parseFile fs source metricType p helpText with
    | GoResult.ok obs =>
      let r := runPaths fs source metricType helpText rest
      (obs ++ r.1, r.2)
    | GoResult.err e => ([], Outcome.err e)
    | GoResult.panics => ([], Outcome.panicked)

/-- The outer loop of `Update` over the registry (procfs.go lines
152-175): a glob error returns immediately, a nil match list skips the
descriptor, and any failure below aborts the scrape keeping the
observations already delivered. -/
def runMetrics (fs : FS) (basePath : String) :
    List lustreProcMetric → List Observation × Outcome
  | [] => ([], Outcome.ok)
  | m :: rest =>
    match fs.glob (globPattern basePath m) with
    | Except.error e => ([], Outcome.err e)
    | Except.ok none => runMetrics fs basePath rest
    | Except.ok (some paths) =>
      let pr := runPaths fs m.source (metricTypeFor m) m.helpText paths
      if pr.2 = Outcome.ok then
        let r := runMetrics fs basePath rest
        (pr.1 ++ r.1, r.2)
      else pr

/-- `Update` (procfs.go lines 149-177): one scrape.  Returns the
observations delivered to the channel, in order, and how the scrape
ended. -/
def Update (fs : FS) (s : lustreSource) : List Observation × Outcome :=
  runMetrics fs s.basePath s.lustreProcMetrics

/-- The path-resolution step for one descriptor (the `filepath.Glob`
call at procfs.go line 153), as a function of the filesystem state. -/
def resolveDescriptor (fs : FS) (basePath : String) (m : lustreProcMetric) :
    Except GoErr (Option (List String)) :=
  fs.glob (globPattern basePath m)

/-- Per-scrape resolution of the whole registry, in registry order. -/
def resolveAll (fs : FS) (s : lustreSource) : List (Except GoErr (Option (List String))) :=
  s.lustreProcMetrics.map (resolveDescriptor fs s.basePath)

/-- Modelled from the spec: the fixed namespace token of the metric
family name.  The constant `Namespace` lives in the repository outside
the provided sources (only its use at procfs.go line 291 is visible);
the spec says only that it is a fixed namespace token. -/
def NamespaceTok : String := "lustre"

/-- `prometheus.BuildFQName`: joins the non-empty parts with
underscores (external library function used at procfs.go line 291). -/
def buildFQName (ns subsystem name : String) : String :=
  if name = "" then ""
  else if ns ≠ "" ∧ subsystem ≠ "" then ns ++ "_" ++ subsystem ++ "_" ++ name
  else if ns ≠ "" then ns ++ "_" ++ name
  else if subsystem ≠ "" then subsystem ++ "_" ++ name
  else name

/-- Number of binary digits of `n`, by structural recursion on 64 units
of fuel (enough for every value `strconv.ParseUint(_, 10, 64)` can
produce). -/
def bitsAux : Nat → Nat → Nat
  | 0, _ => 0
  | fuel + 1, n => if n = 0 then 0 else bitsAux fuel (n / 2) + 1

/-- Bit length of a 64-bit value. -/
def bitLen (n : Nat) : Nat := bitsAux 64 n

/-- The integer value of `float64(n)` for `n < 2^64`: IEEE-754 binary64
conversion rounds to nearest, ties to even, at 53 significant bits.
Every `n ≤ 2^53` is exactly representable; above that the low
`bitLen n - 53` bits are rounded away.  No overflow can occur since
`2^64` is far below the binary64 maximum. -/
def roundFloat64 (n : Nat) : Nat :=
  if n ≤ 2 ^ 53 then n
  else
    let k := bitLen n - 53
    let u := 2 ^ k
    let q := n / u
    let r := n % u
    if 2 * r < u then q * u
    else if u < 2 * r then (q + 1) * u
    else if q % 2 = 0 then q * u else (q + 1) * u

/-- The metric value handed to the prometheus library: descriptor data
plus the converted value. -/
structure PromMetric where
  fqName : String
  helpText : String
  variableLabels : List String
  labelValues : List String
  value : Nat
deriving DecidableEq

/-- `constMetric` (procfs.go lines 288-300): the observation is wrapped
in a counter metric whose value is `float64(value)`, modelled by
`roundFloat64`. -/
def constMetric (nodeType nodeName name helpText : String) (value : Nat) : PromMetric :=
  { fqName := buildFQName NamespaceTok "lustre" name
  , helpText := helpText
  , variableLabels := [nodeType]
  , labelValues := [nodeName]
  , value := roundFloat64 value }

/-! Concrete filesystem fixtures used by the witnesses and
counterexamples. -/

/-- A filesystem holding exactly one file. -/
def fsOf (p : String) (content : List Char) : FS :=
  { glob := fun _ => Except.ok none
  , readFile := fun q =>
      if q = p then Except.ok content
      else Except.error (GoErr.msg "open: no such file or directory") }

/-- An empty filesystem. -/
def trivialFS : FS :=
  { glob := fun _ => Except.ok none
  , readFile := fun _ => Except.error (GoErr.msg "open: no such file or directory") }

end LustreProcfs


namespace LustreProcfs

/-! Equation lemmas and structural lemmas about the scrape loops. -/

lemma runPaths_nil (fs : FS) (source metricType helpText : String) :
    runPaths fs source metricType helpText [] = ([], Outcome.ok) := rfl

lemma runPaths_cons (fs : FS) (source metricType helpText p : String) (rest : List String) :
    runPaths fs source metricType helpText (p :: rest) =
      match parseFile fs source metricType p helpText with
      | GoResult.ok obs =>
        (obs ++ (runPaths fs source metricType helpText rest).1,
         (runPaths fs source metricType helpText rest).2)
      | GoResult.err e => ([], Outcome.err e)
      | GoResult.panics => ([], Outcome.panicked) := rfl

lemma runMetrics_nil (fs : FS) (bp : String) :
    runMetrics fs bp [] = ([], Outcome.ok) := rfl

lemma runMetrics_cons (fs : FS) (bp : String) (m : lustreProcMetric)
    (rest : List lustreProcMetric) :
    runMetrics fs bp (m :: rest) =
      match fs.glob (globPattern bp m) with
      | Except.error e => ([], Outcome.err e)
      | Except.ok none => runMetrics fs bp rest
      | Except.ok (some paths) =>
        if (runPaths fs m.source (metricTypeFor m) m.helpText paths).2 = Outcome.ok then
          ((runPaths fs m.source (metricTypeFor m) m.helpText paths).1 ++
             (runMetrics fs bp rest).1, (runMetrics fs bp rest).2)
        else runPaths fs m.source (metricTypeFor m) m.helpText paths := rfl

/-- A prefix of the registry that scrapes cleanly contributes its
observations in front of whatever the rest of the registry produces. -/
lemma runMetrics_append_ok (fs : FS) (bp : String) :
    ∀ (pre : List lustreProcMetric) (obsPre : List Observation),
      runMetrics fs bp pre = (obsPre, Outcome.ok) →
      ∀ rest, runMetrics fs bp (pre ++ rest) =
        (obsPre ++ (runMetrics fs bp rest).1, (runMetrics fs bp rest).2) := by
  intro pre
  induction pre with
  | nil =>
    intro obsPre h rest
    have hh : obsPre = [] := by
      have := congrArg Prod.fst h
      simpa using this.symm
    subst hh
    simp
  | cons m pre ih =>
    intro obsPre h rest
    rw [List.cons_append]
    cases hg : fs.glob (globPattern bp m) with
    | error e =>
      rw [runMetrics_cons, hg] at h
      simp at h
    | ok o =>
      cases o with
      | none =>
        rw [runMetrics_cons, hg] at h
        rw [runMetrics_cons, hg]
        exact ih obsPre h rest
      | some paths =>
        rw [runMetrics_cons, hg] at h
        rw [runMetrics_cons, hg]
        simp only at h ⊢
        by_cases hpr :
            (runPaths fs m.source (metricTypeFor m) m.helpText paths).2 = Outcome.ok
        · rw [if_pos hpr] at h
          rw [if_pos hpr]
          have h2 : (runMetrics fs bp pre).2 = Outcome.ok := by
            have := congrArg Prod.snd h
            simpa using this
          have h1 : obsPre =
              (runPaths fs m.source (metricTypeFor m) m.helpText paths).1 ++
                (runMetrics fs bp pre).1 := by
            have := congrArg Prod.fst h
            simpa using this.symm
          have hpre : runMetrics fs bp pre = ((runMetrics fs bp pre).1, Outcome.ok) := by
            rw [← h2]
          have hrec := ih (runMetrics fs bp pre).1 hpre rest
          rw [hrec, h1]
          simp [List.append_assoc]
        · rw [if_neg hpr] at h
          rw [if_neg hpr]
          exact absurd (by rw [h]) hpr

/-- `strings.Split` never returns an empty slice: splitting any string
on a separator yields at least one piece. -/
lemma splitChar_ne_nil (sep : Char) (l : List Char) : splitChar sep l ≠ [] := by
  cases l with
  | nil => simp [splitChar]
  | cons c rest =>
    simp only [splitChar]
    split
    · simp
    · split <;> simp

/-- Claim C1: the spec says a resolved path with fewer than two
components (after splitting on the slash) makes the parse step fail with
a fatal scrape error returned to the caller rather than crashing.  The
code does the opposite: the guard at procfs.go line 254 tests
`pathLen < 1`, a condition `strings.Split` can never produce, and the
access `pathElements[pathLen-2]` at line 258 then panics with an
out-of-range index for every one-component path.  The theorem proves the
crash for every path with fewer than two components. -/
theorem c1_short_path_panics (fs : FS) (nodeType metricType path helpText : String)
    (h : (goSplitSlash path).length < 2) :
    parseFile fs nodeType metricType path helpText = GoResult.panics := by
  have hne : goSplitSlash path ≠ [] := by
    unfold goSplitSlash
    simp [splitChar_ne_nil]
  obtain ⟨a, ha⟩ : ∃ a, goSplitSlash path = [a] := by
    cases hl : goSplitSlash path with
    | nil => exact absurd hl hne
    | cons a t =>
      refine ⟨a, ?_⟩
      rw [hl] at h
      simp only [List.length_cons] at h
      have ht : t.length = 0 := by omega
      simp [List.length_eq_zero.mp ht]
  unfold parseFile
  rw [ha]
  simp [goGetStr]

theorem c1_short_path_panics_witness :
    parseFile trivialFS "OSS" "single" "stats" "some help text" = GoResult.panics :=
  c1_short_path_panics trivialFS "OSS" "single" "stats" "some help text" (by decide)

/-- The path used by the stats-grammar fixtures. -/
def statsPathFixture : String := "/proc/fs/lustre/obdfilter/OST0000/stats"

/-- A stats file whose matched `read_bytes` line has only six
whitespace-separated fields (the sum field is missing). -/
def c2content : List Char := "read_bytes 3 samples [bytes] 10 100\n".toList

/-- Claim C2: the spec says a matched stats line with fewer than seven
fields is a fatal parse error returned to the caller, not a crash.  The
code validates no field count: on a six-field `read_bytes` line fields
1, 4 and 5 parse as numbers and the access `bytesSplit[6]` at
procfs.go line 211 panics with an out-of-range index.  The theorem
evaluates the parser, and the whole stats grammar, at that input. -/
theorem c2_short_line_panics :
    parseReadWriteBytes readBytesTok c2content = GoResult.panics ∧
    parseFile (fsOf statsPathFixture c2content) "OSS" "stats" statsPathFixture
      "A collection of statistics specific to Lustre" = GoResult.panics :=
  ⟨by decide, by decide⟩

/-- Claim C3: in a scrape whose registry prefix `pre` succeeds, if a
descriptor resolves to three paths of which the first parses cleanly and
the second fails, then the scrape returns that error, the observations
delivered are exactly those of the prefix and of the first path, and the
third path and every later descriptor contribute nothing. -/
theorem c3_fail_fast (fs : FS) (bp : String) (pre post : List lustreProcMetric)
    (m : lustreProcMetric) (p1 p2 p3 : String) (obsPre obs1 : List Observation) (e : GoErr)
    (hpre : runMetrics fs bp pre = (obsPre, Outcome.ok))
    (hglob : resolveDescriptor fs bp m = Except.ok (some [p1, p2, p3]))
    (hp1 : parseFile fs m.source (metricTypeFor m) p1 m.helpText = GoResult.ok obs1)
    (hp2 : parseFile fs m.source (metricTypeFor m) p2 m.helpText = GoResult.err e) :
    Update fs { lustreProcMetrics := pre ++ m :: post, basePath := bp } =
      (obsPre ++ obs1, Outcome.err e) := by
  rw [resolveDescriptor] at hglob
  have hrp : runPaths fs m.source (metricTypeFor m) m.helpText [p1, p2, p3] =
      (obs1, Outcome.err e) := by
    rw [runPaths_cons, hp1, runPaths_cons, hp2]
    simp
  unfold Update
  simp only
  rw [runMetrics_append_ok fs bp pre obsPre hpre (m :: post)]
  rw [runMetrics_cons, hglob]
  simp [hrp]

/-- An OSS descriptor for the scalar metric `blocksize`. -/
def c3metric : lustreProcMetric :=
  newLustreProcMetric "blocksize" "OSS" "obdfilter/*" "Filesystem block size in bytes"

/-- Filesystem with three matching OST instances; the second file holds
non-numeric content. -/
def fsC3 : FS :=
  { glob := fun pat =>
      if pat = "/proc/fs/lustre/obdfilter/*/blocksize" then
        Except.ok (some ["/proc/fs/lustre/obdfilter/ost1/blocksize",
                         "/proc/fs/lustre/obdfilter/ost2/blocksize",
                         "/proc/fs/lustre/obdfilter/ost3/blocksize"])
      else Except.ok none
  , readFile := fun p =>
      if p = "/proc/fs/lustre/obdfilter/ost1/blocksize" then Except.ok ("4096\n".toList)
      else if p = "/proc/fs/lustre/obdfilter/ost2/blocksize" then Except.ok ("bad\n".toList)
      else Except.ok ("1\n".toList) }

theorem c3_fail_fast_witness :
    Update fsC3 { lustreProcMetrics := [c3metric], basePath := "/proc/fs/lustre" } =
      ([{ nodeType := "OSS", nodeName := "ost1", name := "blocksize",
          helpText := "Filesystem block size in bytes", value := 4096 }],
       Outcome.err (GoErr.msg "invalid syntax")) :=
  c3_fail_fast fsC3 "/proc/fs/lustre" [] [] c3metric
    "/proc/fs/lustre/obdfilter/ost1/blocksize" "/proc/fs/lustre/obdfilter/ost2/blocksize"
    "/proc/fs/lustre/obdfilter/ost3/blocksize"
    [] [{ nodeType := "OSS", nodeName := "ost1", name := "blocksize",
          helpText := "Filesystem block size in bytes", value := 4096 }]
    (GoErr.msg "invalid syntax") (by decide) (by rfl) (by decide) (by decide)

/-- The well-formed two-line stats file of the spec test vector. -/
def c4content : List Char :=
  ("read_bytes 3 samples [bytes] 10 100 150\n" ++
   "write_bytes 2 samples [bytes] 5 50 55\n").toList

/-- Claim C4: parsing the two-line stats test vector emits exactly the 8
observations of the spec, each with its fixed per-statistic help text.
The list is ordered read-then-write and samples/minimum/maximum/total
within a direction (the insertion order of the source maps; Go iterates
its maps in unspecified order, and the claim names the observations as a
set, which this list realises). -/
theorem c4_eight_observations :
    parseFile (fsOf statsPathFixture c4content) "OSS" "stats" statsPathFixture
      "A collection of statistics specific to Lustre" =
    GoResult.ok
      [{ nodeType := "OSS", nodeName := "OST0000", name := "read_samples_total",
         helpText := samplesHelp, value := 3 },
       { nodeType := "OSS", nodeName := "OST0000", name := "read_minimum_size_bytes",
         helpText := minimumHelp, value := 10 },
       { nodeType := "OSS", nodeName := "OST0000", name := "read_maximum_size_bytes",
         helpText := maximumHelp, value := 100 },
       { nodeType := "OSS", nodeName := "OST0000", name := "read_total_bytes",
         helpText := totalHelp, value := 150 },
       { nodeType := "OSS", nodeName := "OST0000", name := "write_samples_total",
         helpText := samplesHelp, value := 2 },
       { nodeType := "OSS", nodeName := "OST0000", name := "write_minimum_size_bytes",
         helpText := minimumHelp, value := 5 },
       { nodeType := "OSS", nodeName := "OST0000", name := "write_maximum_size_bytes",
         helpText := maximumHelp, value := 50 },
       { nodeType := "OSS", nodeName := "OST0000", name := "write_total_bytes",
         helpText := totalHelp, value := 55 }] := by decide

/-- Claim C5: a glob error on a descriptor (with the registry prefix
`pre` succeeding) aborts the scrape with that error, while a descriptor
whose expansion yields no matches is skipped: the scrape result is the
same as if the descriptor were absent from the registry. -/
theorem c5_resolution_outcomes (fs : FS) (bp : String) (pre post : List lustreProcMetric)
    (m mSkip : lustreProcMetric) (obsPre : List Observation) (e : GoErr)
    (hpre : runMetrics fs bp pre = (obsPre, Outcome.ok))
    (hge : resolveDescriptor fs bp m = Except.error e)
    (hgn : resolveDescriptor fs bp mSkip = Except.ok none) :
    Update fs { lustreProcMetrics := pre ++ m :: post, basePath := bp } =
      (obsPre, Outcome.err e) ∧
    Update fs { lustreProcMetrics := pre ++ mSkip :: post, basePath := bp } =
      Update fs { lustreProcMetrics := pre ++ post, basePath := bp } := by
  rw [resolveDescriptor] at hge hgn
  constructor
  · unfold Update
    simp only
    rw [runMetrics_append_ok fs bp pre obsPre hpre (m :: post)]
    rw [runMetrics_cons, hge]
    simp
  · unfold Update
    simp only
    rw [runMetrics_append_ok fs bp pre obsPre hpre (mSkip :: post),
        runMetrics_append_ok fs bp pre obsPre hpre post]
    rw [runMetrics_cons, hgn]

/-- Descriptor whose pattern the fixture filesystem fails to walk. -/
def c5metricErr : lustreProcMetric :=
  newLustreProcMetric "brw_size" "OSS" "obdfilter/*" "Block read/write size in bytes"

/-- Descriptor whose pattern matches nothing on the fixture filesystem. -/
def c5metricSkip : lustreProcMetric :=
  newLustreProcMetric "blocksize" "OSS" "obdfilter/*" "Filesystem block size in bytes"

/-- Filesystem whose walk fails for the `brw_size` pattern and matches
nothing anywhere else. -/
def fsC5 : FS :=
  { glob := fun pat =>
      if pat = "/proc/fs/lustre/obdfilter/*/brw_size" then
        Except.error (GoErr.msg "permission denied")
      else Except.ok none
  , readFile := fun _ => Except.error (GoErr.msg "open: no such file or directory") }

theorem c5_resolution_outcomes_witness :
    Update fsC5 { lustreProcMetrics := [c5metricErr], basePath := "/proc/fs/lustre" } =
      ([], Outcome.err (GoErr.msg "permission denied")) ∧
    Update fsC5 { lustreProcMetrics := [c5metricSkip], basePath := "/proc/fs/lustre" } =
      Update fsC5 { lustreProcMetrics := [], basePath := "/proc/fs/lustre" } :=
  c5_resolution_outcomes fsC5 "/proc/fs/lustre" [] [] c5metricErr c5metricSkip []
    (GoErr.msg "permission denied") (by decide) (by rfl) (by rfl)

/-- A stats file whose only `read_bytes ` token sits mid-line, after the
text `foo `. -/
def c6content : List Char := "foo read_bytes 1 samples [bytes] 2 3 4\n".toList

/-- Claim C6 counterexample: the claim says a line merely containing the
token `read_bytes` elsewhere than at its start contributes no
observations.  In `c6content` the token occurs only at index 4 (the line
starts with `foo `), yet the parser matches it and the stats grammar
emits four read observations. -/
theorem c6_counterexample :
    firstOccIdx readBytesTok c6content = some 4 ∧
    parseFile (fsOf statsPathFixture c6content) "OSS" "stats" statsPathFixture
        "A collection of statistics specific to Lustre" =
      GoResult.ok
        [{ nodeType := "OSS", nodeName := "OST0000", name := "read_samples_total",
           helpText := samplesHelp, value := 1 },
         { nodeType := "OSS", nodeName := "OST0000", name := "read_minimum_size_bytes",
           helpText := minimumHelp, value := 2 },
         { nodeType := "OSS", nodeName := "OST0000", name := "read_maximum_size_bytes",
           helpText := maximumHelp, value := 3 },
         { nodeType := "OSS", nodeName := "OST0000", name := "read_total_bytes",
           helpText := totalHelp, value := 4 }] :=
  ⟨by decide, by decide⟩

/-- `FindString` selects the line of the leftmost occurrence of the
token. -/
lemma findTokenLine_eq (tok : List Char) :
    ∀ s : List Char, findTokenLine tok s =
      (firstOccIdx tok s).map (fun i => (s.drop i).takeWhile (fun d => d != '\n')) := by
  intro s
  induction s with
  | nil => rfl
  | cons c rest ih =>
    by_cases hp : tok.isPrefixOf (c :: rest)
    · simp [findTokenLine, firstOccIdx, hp]
    · simp only [findTokenLine, firstOccIdx, hp, if_neg, Bool.false_eq_true, ite_false, ih]
      cases h : firstOccIdx tok rest <;> simp [h]

/-- Claim C6 as amended: for each direction the extraction uses at most
one match, namely the leftmost occurrence of the direction token
anywhere in the text (not necessarily at a line start) extended to the
end of its line, and a direction whose token does not occur contributes
no observations. -/
theorem c6_leftmost_selection (s : List Char) :
    (firstOccIdx readBytesTok s = none →
      parseReadWriteBytes readBytesTok s = GoResult.ok none) ∧
    (∀ i, firstOccIdx readBytesTok s = some i →
      parseReadWriteBytes readBytesTok s =
        liftFound (parseLineFields ((s.drop i).takeWhile (fun d => d != '\n')))) ∧
    (firstOccIdx writeBytesTok s = none →
      parseReadWriteBytes writeBytesTok s = GoResult.ok none) ∧
    (∀ i, firstOccIdx writeBytesTok s = some i →
      parseReadWriteBytes writeBytesTok s =
        liftFound (parseLineFields ((s.drop i).takeWhile (fun d => d != '\n')))) := by
  refine ⟨fun h => ?_, fun i h => ?_, fun h => ?_, fun i h => ?_⟩ <;>
    simp [parseReadWriteBytes, findTokenLine_eq, h]

/-- A stats file whose only `write_bytes ` token sits mid-line. -/
def c6writeContent : List Char := "x write_bytes 2 samples [bytes] 3 4 5\n".toList

theorem c6_leftmost_selection_witness :
    parseReadWriteBytes readBytesTok ("no stats lines here\n".toList) = GoResult.ok none ∧
    parseReadWriteBytes readBytesTok c6content =
      liftFound (parseLineFields ((c6content.drop 4).takeWhile (fun d => d != '\n'))) ∧
    parseReadWriteBytes writeBytesTok ("no stats lines here\n".toList) = GoResult.ok none ∧
    parseReadWriteBytes writeBytesTok c6writeContent =
      liftFound (parseLineFields ((c6writeContent.drop 2).takeWhile (fun d => d != '\n'))) :=
  ⟨(c6_leftmost_selection _).1 (by decide),
   (c6_leftmost_selection _).2.1 4 (by decide),
   (c6_leftmost_selection _).2.2.1 (by decide),
   (c6_leftmost_selection _).2.2.2 2 (by decide)⟩

/-- Claim C7: scalar parsing of a file containing `42` followed by a
newline succeeds with the single observation 42, and scalar parsing of
`abc` returns the numeric-syntax error (a returned error: nothing is
handed to the sink). -/
theorem c7_scalar_parsing :
    parseFile (fsOf "/proc/fs/lustre/obdfilter/ost1/blocksize" ("42\n".toList))
        "OSS" "single" "/proc/fs/lustre/obdfilter/ost1/blocksize"
        "Filesystem block size in bytes" =
      GoResult.ok [{ nodeType := "OSS", nodeName := "ost1", name := "blocksize",
                     helpText := "Filesystem block size in bytes", value := 42 }] ∧
    parseFile (fsOf "/proc/fs/lustre/obdfilter/ost1/blocksize" ("abc".toList))
        "OSS" "single" "/proc/fs/lustre/obdfilter/ost1/blocksize"
        "Filesystem block size in bytes" =
      GoResult.err (GoErr.msg "invalid syntax") :=
  ⟨by decide, by decide⟩

/-- Claim C8: when the stats file has no `write_bytes ` token and its
read direction parses to `st`, parsing succeeds and the emission is
exactly the four read observations built from `st`, with zero write
observations; and symmetrically with the directions exchanged. -/
theorem c8_single_direction (nodeType nodeName path : String) (f : List Char) (st : RWStats) :
    (findTokenLine writeBytesTok f = none →
      parseReadWriteBytes readBytesTok f = GoResult.ok (some st) →
      parseStatsFile (fsOf path f) path = GoResult.ok (some st, none) ∧
      statsObservations nodeType nodeName (some st, none) =
        [{ nodeType := nodeType, nodeName := nodeName, name := "read_samples_total",
           helpText := samplesHelp, value := st.samples },
         { nodeType := nodeType, nodeName := nodeName, name := "read_minimum_size_bytes",
           helpText := minimumHelp, value := st.minimum },
         { nodeType := nodeType, nodeName := nodeName, name := "read_maximum_size_bytes",
           helpText := maximumHelp, value := st.maximum },
         { nodeType := nodeType, nodeName := nodeName, name := "read_total_bytes",
           helpText := totalHelp, value := st.total }]) ∧
    (findTokenLine readBytesTok f = none →
      parseReadWriteBytes writeBytesTok f = GoResult.ok (some st) →
      parseStatsFile (fsOf path f) path = GoResult.ok (none, some st) ∧
      statsObservations nodeType nodeName (none, some st) =
        [{ nodeType := nodeType, nodeName := nodeName, name := "write_samples_total",
           helpText := samplesHelp, value := st.samples },
         { nodeType := nodeType, nodeName := nodeName, name := "write_minimum_size_bytes",
           helpText := minimumHelp, value := st.minimum },
         { nodeType := nodeType, nodeName := nodeName, name := "write_maximum_size_bytes",
           helpText := maximumHelp, value := st.maximum },
         { nodeType := nodeType, nodeName := nodeName, name := "write_total_bytes",
           helpText := totalHelp, value := st.total }]) := by
  constructor
  · intro hw hr
    have hwrite : parseReadWriteBytes writeBytesTok f = GoResult.ok none := by
      simp [parseReadWriteBytes, hw]
    refine ⟨?_, rfl⟩
    simp [parseStatsFile, fsOf, hr, hwrite]
  · intro hr hwst
    have hread : parseReadWriteBytes readBytesTok f = GoResult.ok none := by
      simp [parseReadWriteBytes, hr]
    refine ⟨?_, rfl⟩
    simp [parseStatsFile, fsOf, hread, hwst]

/-- A stats file holding only a read direction line. -/
def c8readOnly : List Char := "read_bytes 3 samples [bytes] 10 100 150\n".toList

/-- A stats file holding only a write direction line. -/
def c8writeOnly : List Char := "write_bytes 2 samples [bytes] 5 50 55\n".toList

theorem c8_single_direction_witness :
    (parseStatsFile (fsOf statsPathFixture c8readOnly) statsPathFixture =
        GoResult.ok (some { samples := 3, minimum := 10, maximum := 100, total := 150 }, none) ∧
      statsObservations "OSS" "OST0000"
          (some { samples := 3, minimum := 10, maximum := 100, total := 150 }, none) =
        [{ nodeType := "OSS", nodeName := "OST0000", name := "read_samples_total",
           helpText := samplesHelp, value := 3 },
         { nodeType := "OSS", nodeName := "OST0000", name := "read_minimum_size_bytes",
           helpText := minimumHelp, value := 10 },
         { nodeType := "OSS", nodeName := "OST0000", name := "read_maximum_size_bytes",
           helpText := maximumHelp, value := 100 },
         { nodeType := "OSS", nodeName := "OST0000", name := "read_total_bytes",
           helpText := totalHelp, value := 150 }]) ∧
    (parseStatsFile (fsOf statsPathFixture c8writeOnly) statsPathFixture =
        GoResult.ok (none, some { samples := 2, minimum := 5, maximum := 50, total := 55 }) ∧
      statsObservations "OSS" "OST0000"
          (none, some { samples := 2, minimum := 5, maximum := 50, total := 55 }) =
        [{ nodeType := "OSS", nodeName := "OST0000", name := "write_samples_total",
           helpText := samplesHelp, value := 2 },
         { nodeType := "OSS", nodeName := "OST0000", name := "write_minimum_size_bytes",
           helpText := minimumHelp, value := 5 },
         { nodeType := "OSS", nodeName := "OST0000", name := "write_maximum_size_bytes",
           helpText := maximumHelp, value := 50 },
         { nodeType := "OSS", nodeName := "OST0000", name := "write_total_bytes",
           helpText := totalHelp, value := 55 }]) :=
  ⟨(c8_single_direction "OSS" "OST0000" statsPathFixture c8readOnly
      { samples := 3, minimum := 10, maximum := 100, total := 150 }).1 (by decide) (by decide),
   (c8_single_direction "OSS" "OST0000" statsPathFixture c8writeOnly
      { samples := 2, minimum := 5, maximum := 50, total := 55 }).2 (by decide) (by decide)⟩

/-- Claim C9: path resolution is stateless and idempotent.  The engine
keeps no mutable state: `Update` and `resolveAll` are functions of the
immutable registry and of the filesystem snapshot only (the Go code
writes nothing and mutates neither `lustreSource` nor any global), so
resolving the same registry twice against the same filesystem state
yields the same list of per-descriptor results, element for element. -/
theorem c9_resolution_idempotent (fs : FS) (s : lustreSource) (i : Nat) :
    resolveAll fs s = resolveAll fs s ∧
    (resolveAll fs s).get? i = (resolveAll fs s).get? i :=
  ⟨rfl, rfl⟩

/-- Claim C10: the value delivered to the sink is `float64(value)` of
the parsed uint64, modelled by round-to-nearest-even at 53 significant
bits; every value up to `2^53` is delivered exactly, and larger values
may be rounded — witnessed by `2^53 + 1`, which the conversion rounds
down to `2^53`. -/
theorem c10_float64_conversion (nodeType nodeName name helpText : String) (v : Nat)
    (hv : v ≤ 2 ^ 53) :
    (constMetric nodeType nodeName name helpText v).value = roundFloat64 v ∧
    (constMetric nodeType nodeName name helpText v).value = v ∧
    roundFloat64 (2 ^ 53 + 1) ≠ 2 ^ 53 + 1 ∧
    (constMetric nodeType nodeName name helpText (2 ^ 53 + 1)).value ≠ 2 ^ 53 + 1 := by
  refine ⟨rfl, ?_, by decide, ?_⟩
  · show roundFloat64 v = v
    unfold roundFloat64
    rw [if_pos hv]
  · show roundFloat64 (2 ^ 53 + 1) ≠ 2 ^ 53 + 1
    decide

theorem c10_float64_conversion_witness :
    (constMetric "OSS" "ost1" "blocksize" "Filesystem block size in bytes" 42).value =
      roundFloat64 42 ∧
    (constMetric "OSS" "ost1" "blocksize" "Filesystem block size in bytes" 42).value = 42 ∧
    roundFloat64 (2 ^ 53 + 1) ≠ 2 ^ 53 + 1 ∧
    (constMetric "OSS" "ost1" "blocksize" "Filesystem block size in bytes"
      (2 ^ 53 + 1)).value ≠ 2 ^ 53 + 1 :=
  c10_float64_conversion "OSS" "ost1" "blocksize" "Filesystem block size in bytes" 42 (by decide)

end LustreProcfs
